import Mathlib

/-!
# Verification of the insurance chatbot backend (`main.py`)

A shallow embedding of the data model and request handlers of the
insurance lead-generation chatbot, together with proofs of the
behavioural claims made by its specification.

The SQLite database is modelled as lists of rows.  `CURRENT_TIMESTAMP`
is modelled by a monotone natural-number clock that advances on every
insert, so every inserted row receives a strictly later timestamp than
all rows already present.  `AUTOINCREMENT` row ids are modelled by
per-table counters that are never reused.
-/

/-- A row of the `chat_history` table
(`id INTEGER PRIMARY KEY AUTOINCREMENT, session_id, timestamp, role, message`). -/
structure ChatRow where
  rowid : Nat
  ts : Nat
  session_id : String
  role : String
  message : String
deriving DecidableEq, Repr

/-- A row of the `leads` table.  `affiliate_clicked` and `quote_requested`
default to `0` (false) and `timestamp` defaults to `CURRENT_TIMESTAMP`. -/
structure LeadRow where
  id : Nat
  ts : Nat
  session_id : String
  name : String
  email : String
  phone : String
  location : String
  home_value : String
  interest_level : String
  source : String
  conversation_summary : String
  affiliate_clicked : Bool
  quote_requested : Bool
deriving DecidableEq, Repr

/-- A row of the `admin_logs` table. -/
structure AdminLogRow where
  ts : Nat
  admin_user : String
  action : String
  details : String
deriving DecidableEq, Repr

/-- The whole SQLite database file `insurance_leads.db`. -/
structure DB where
  leads : List LeadRow
  chat_history : List ChatRow
  admin_logs : List AdminLogRow
  nextLeadId : Nat
  nextChatId : Nat
  clock : Nat
deriving DecidableEq, Repr

/-- `init_database`: creates the three empty tables. -/
def init_database : DB :=
  { leads := [], chat_history := [], admin_logs := [], nextLeadId := 1, nextChatId := 1, clock := 0 }

/-- The values bound by `save_lead`'s parameterised `INSERT` (the nine columns
it supplies; the caller has already applied the `data.get` defaults). -/
structure LeadData where
  session_id : String
  name : String
  email : String
  phone : String
  location : String
  home_value : String
  interest_level : String
  source : String
  conversation_summary : String
deriving DecidableEq, Repr

/-- `save_lead`: `INSERT OR REPLACE INTO leads (...)`.  Because `email` is
`UNIQUE`, `OR REPLACE` first deletes any row with the same email, then inserts
a fresh row; the unsupplied columns `id`, `timestamp`, `affiliate_clicked`,
`quote_requested` take their schema defaults (fresh autoincrement id, current
time, 0, 0). -/
def save_lead (db : DB) (d : LeadData) : DB :=
  let newRow : LeadRow :=
    { id := db.nextLeadId, ts := db.clock
      session_id := d.session_id, name := d.name, email := d.email, phone := d.phone
      location := d.location, home_value := d.home_value
      interest_level := d.interest_level, source := d.source
      conversation_summary := d.conversation_summary
      affiliate_clicked := false, quote_requested := false }
  { db with
    leads := db.leads.filter (fun r => r.email != d.email) ++ [newRow]
    nextLeadId := db.nextLeadId + 1
    clock := db.clock + 1 }

/-- `save_chat_message`: `INSERT INTO chat_history (session_id, role, message)`. -/
def save_chat_message (db : DB) (session_id role message : String) : DB :=
  { db with
    chat_history := db.chat_history ++
      [{ rowid := db.nextChatId, ts := db.clock
         session_id := session_id, role := role, message := message }]
    nextChatId := db.nextChatId + 1
    clock := db.clock + 1 }

/-- One entry of the list returned by `get_chat_history`
(`{"role": ..., "message": ..., "timestamp": ...}`). -/
structure ChatMsg where
  role : String
  message : String
  ts : Nat
deriving DecidableEq, Repr

/-- Insert a row into a list that is sorted by descending timestamp. -/
def insertByTsDesc (r : ChatRow) : List ChatRow → List ChatRow
  | [] => [r]
  | x :: xs => if x.ts ≤ r.ts then r :: x :: xs else x :: insertByTsDesc r xs

/-- `ORDER BY timestamp DESC` (any sort on the timestamp key; timestamps of a
table are pairwise distinct in this model). -/
def sortByTsDesc : List ChatRow → List ChatRow
  | [] => []
  | x :: xs => insertByTsDesc x (sortByTsDesc xs)

/-- `get_chat_history`: rows of the session ordered by `timestamp DESC`,
`LIMIT limit`, then reversed (`rows[::-1]`) and turned into dicts. -/
def get_chat_history (db : DB) (session_id : String) (limit : Nat) : List ChatMsg :=
  let rows := db.chat_history.filter (fun r => r.session_id == session_id)
  let sorted := sortByTsDesc rows
  ((sorted.take limit).reverse).map (fun r => { role := r.role, message := r.message, ts := r.ts })

/-- `log_admin_action`: `INSERT INTO admin_logs (admin_user, action, details)`. -/
def log_admin_action (db : DB) (admin_user action details : String) : DB :=
  { db with
    admin_logs := db.admin_logs ++
      [{ ts := db.clock, admin_user := admin_user, action := action, details := details }]
    clock := db.clock + 1 }

/-- Result of the `DELETE /api/admin/lead/{lead_id}` handler: the new database
state and the `{"success": true}` JSON payload. -/
structure DeleteLeadResult where
  db : DB
  success : Bool
deriving Repr

/-- `delete_lead` (the part after `Depends(verify_admin)` has supplied the
authenticated `username`): `DELETE FROM leads WHERE id = ?`, then one
`log_admin_action(username, "delete_lead", f"Deleted lead ID: {lead_id}")`,
then return `{"success": True}`. -/
def delete_lead (db : DB) (username : String) (lead_id : Nat) : DeleteLeadResult :=
  let db1 := { db with leads := db.leads.filter (fun r => r.id != lead_id) }
  let db2 := log_admin_action db1 username "delete_lead" ("Deleted lead ID: " ++ toString lead_id)
  { db := db2, success := true }

/-- Outcome of the `GET /webhook` handler. -/
inductive WebhookResult where
  | challenge (n : Int)
  | httpError (status : Nat) (detail : String)
deriving DecidableEq, Repr

/-- Models Python `int(s)` on the decimal strings relevant here: an optional
minus sign followed by one or more ASCII digits; `none` models the
`ValueError` raised on anything else. -/
def py_int (s : String) : Option Int :=
  let digits : List Char → Option Nat := fun ds =>
    if ds = [] then none
    else if ds.all Char.isDigit then
      some (ds.foldl (fun acc c => 10 * acc + (c.toNat - 48)) 0)
    else none
  match s.data with
  | '-' :: ds => (digits ds).map (fun n => -(n : Int))
  | ds => (digits ds).map (fun n => (n : Int))

/-- The default of `FB_VERIFY_TOKEN = os.getenv("FB_VERIFY_TOKEN", "insurance_bot_2025")`. -/
def FB_VERIFY_TOKEN_default : String := "insurance_bot_2025"

/-- `GET /webhook` (`verify_webhook`): echo `int(hub_challenge)` when
`hub_mode == "subscribe"` and `hub_verify_token == FB_VERIFY_TOKEN`, else
`HTTPException(403, "Verification failed")`.  A non-numeric challenge makes
`int()` raise, which surfaces as a server error, not a 403. -/
def verify_webhook (fb_verify_token : String)
    (hub_mode hub_challenge hub_verify_token : String) : WebhookResult :=
  if hub_mode = "subscribe" ∧ hub_verify_token = fb_verify_token then
    match py_int hub_challenge with
    | some n => .challenge n
    | none => .httpError 500 "ValueError"
  else .httpError 403 "Verification failed"

/-- Admin configuration: `ADMIN_USERNAME` and the optional
`ADMIN_PASSWORD_HASH` (`none` models the Python-falsy unset value). -/
structure AdminConfig where
  username : String
  password_hash : Option String
deriving DecidableEq, Repr

/-- An HTTP Basic username/password pair. -/
structure Credentials where
  username : String
  password : String
deriving DecidableEq, Repr

/-- Outcome of `verify_admin`. -/
inductive AuthResult where
  | ok (username : String)
  | error (status : Nat) (detail : String)
deriving DecidableEq, Repr

/-- `verify_admin`, parameterised by the SHA-256 hex-digest function it uses:
reject a wrong username with 401 "Invalid username"; then, if a password hash
is configured, reject a password whose digest differs with 401
"Invalid password"; if no hash is configured, reject any password other than
the development fallback `"admin123"`; otherwise return the username. -/
def verify_admin (cfg : AdminConfig) (sha256hex : String → String)
    (credentials : Credentials) : AuthResult :=
  if credentials.username ≠ cfg.username then .error 401 "Invalid username"
  else
    let password_hash := sha256hex credentials.password
    match cfg.password_hash with
    | some configured =>
        if password_hash ≠ configured then .error 401 "Invalid password"
        else .ok credentials.username
    | none =>
        if credentials.password ≠ "admin123" then .error 401 "Invalid password"
        else .ok credentials.username

/-- Result of `GET /track/{affiliate_id}`: a `RedirectResponse`. -/
structure RedirectResult where
  url : String
  status_code : Nat
deriving DecidableEq, Repr

/-- `track_affiliate_click`: choose a base URL by `affiliate_id` (default: the
bare thezebra origin), then append `&email=...` / `&source=...` for each
supplied truthy (non-empty) parameter, and 302-redirect there. -/
def track_affiliate_click (affiliate_id : String)
    (email source : Option String) : RedirectResult :=
  let redirect_url :=
    if affiliate_id = "thezebra" then "https://www.thezebra.com/?agent=INSURANCEBOT"
    else if affiliate_id = "policygenius" then "https://www.policygenius.com/?ref=INSURANCEBOT"
    else if affiliate_id = "lemonade" then "https://www.lemonade.com/landing/ref-INSURANCEBOT"
    else "https://www.thezebra.com"
  let redirect_url :=
    match email with
    | some e => if e ≠ "" then redirect_url ++ "&email=" ++ e else redirect_url
    | none => redirect_url
  let redirect_url :=
    match source with
    | some s => if s ≠ "" then redirect_url ++ "&source=" ++ s else redirect_url
    | none => redirect_url
  { url := redirect_url, status_code := 302 }

/-- The query parameters of a URL under standard URL semantics: the part after
the first `?`, split on `&`.  A URL with no `?` has no query parameters. -/
def queryParams (url : String) : List String :=
  match url.data.splitOn '?' with
  | _ :: q₁ :: qs => ((List.intercalate ['?'] (q₁ :: qs)).splitOn '&').map String.mk
  | _ => []

/-- A message dict sent to the completion provider (`role`/`content`). -/
structure FMessage where
  role : String
  content : String
deriving DecidableEq, Repr

/-- The fixed system prompt of `get_ai_response`. -/
def system_prompt : String :=
  "You are a professional home insurance assistant. Help users with:\n" ++
  "    1. Insurance information and quotes\n" ++
  "    2. Coverage explanations\n" ++
  "    3. Risk assessment guidance\n" ++
  "    4. Premium estimations\n" ++
  "    \n" ++
  "    Always be helpful, professional, and suggest speaking with licensed agents.\n" ++
  "    When users ask for quotes, collect: location, home value, and contact info.\n" ++
  "    Never give financial advice - recommend consulting professionals."

/-- The fixed apology returned by `get_ai_response` when the provider call
raises any exception. -/
def fallback_message : String :=
  "I apologize, but I'm having trouble processing your request. Please try again or use our quick quote form."

/-- The `formatted_messages` built by `get_ai_response`: the system prompt
followed by the last 6 history entries (`messages[-6:]`), each translated into
the two-role schema (`"user"` stays `"user"`, anything else becomes
`"assistant"`). -/
def format_messages (messages : List ChatMsg) : List FMessage :=
  { role := "system", content := system_prompt } ::
    (messages.drop (messages.length - 6)).map (fun m =>
      { role := if m.role = "user" then "user" else "assistant", content := m.message })

/-- `get_ai_response`, parameterised by the completion provider.  The provider
is an oracle from the formatted messages to `Option String`; `some text` is a
successful completion and `none` models any failure of the `try` block
(timeout, error response, malformed reply), answered with the fixed fallback. -/
def get_ai_response (provider : List FMessage → Option String)
    (messages : List ChatMsg) : String :=
  match provider (format_messages messages) with
  | some content => content
  | none => fallback_message

/-- The fixed keyword list of the `POST /api/chat` handler. -/
def quote_keywords : List String := ["quote", "price", "how much", "cost", "rate"]

/-- Models Python `str.lower()` (character-wise lowering; identical to Python
on the ASCII alphabet these keywords use). -/
def pyLower (s : String) : String := String.mk (s.data.map Char.toLower)

/-- Contiguous-sublist test: does `needle` occur in the list, starting at some
position? -/
def containsSub (needle : List Char) : List Char → Bool
  | [] => needle.isEmpty
  | c :: cs => List.isPrefixOf needle (c :: cs) || containsSub needle cs

/-- Models Python's substring test `needle in hay`. -/
def pyIn (needle hay : String) : Bool := containsSub needle.data hay.data

/-- The keyword test of the handler:
`any(keyword in message.lower() for keyword in quote_keywords)`. -/
def is_quote_request (message : String) : Bool :=
  quote_keywords.any (fun k => pyIn k (pyLower message))

/-- The fixed call-to-action appended to the reply of a pricing-intent
message. -/
def cta_suffix : String :=
  "\n\n**Need actual quotes?** Provide your email for quotes from our partner carriers."

/-- Result of the `POST /api/chat` handler: the new database state and the
JSON payload `response`/`session_id`. -/
structure ChatApiResult where
  db : DB
  response : String
  session_id : String
deriving Repr

/-- `POST /api/chat` (`chat_api`): save the user turn, fetch the last 6
messages of the session, ask the provider, save the assistant turn, then — if
the original message matches a pricing keyword — append the call-to-action
suffix to the returned (not the persisted) reply. -/
def chat_api (provider : List FMessage → Option String)
    (db : DB) (message session_id : String) : ChatApiResult :=
  let db1 := save_chat_message db session_id "user" message
  let history := get_chat_history db1 session_id 6
  let ai_response := get_ai_response provider history
  let db2 := save_chat_message db1 session_id "assistant" ai_response
  let final := if is_quote_request message then ai_response ++ cta_suffix else ai_response
  { db := db2, response := final, session_id := session_id }

/-- The assistant reply `chat_api` obtains from `get_ai_response` (before any
suffixing): the provider's answer to the session's last-6 history, which at
that point already includes the just-saved user turn. -/
def chat_api_ai (provider : List FMessage → Option String)
    (db : DB) (message session_id : String) : String :=
  get_ai_response provider
    (get_chat_history (save_chat_message db session_id "user" message) session_id 6)

/-- The rows of one session, in table (insertion) order. -/
def sessionRows (db : DB) (s : String) : List ChatRow :=
  db.chat_history.filter (fun r => r.session_id == s)

/-- Appending a run of `(role, message)` turns for one session through
`save_chat_message`. -/
def appendAll (db : DB) (s : String) (ms : List (String × String)) : DB :=
  ms.foldl (fun d rm => save_chat_message d s rm.1 rm.2) db

/-- Model invariant: chat rows are stored in strictly increasing timestamp
order and every stored timestamp lies below the clock.  It holds of
`init_database` and is preserved by every insert. -/
abbrev ChatTsOk (db : DB) : Prop :=
  db.chat_history.Pairwise (fun a b => a.ts < b.ts) ∧ ∀ r ∈ db.chat_history, r.ts < db.clock

theorem chatTsOk_save (db : DB) (h : ChatTsOk db) (s role msg : String) :
    ChatTsOk (save_chat_message db s role msg) := by
  obtain ⟨hp, hlt⟩ := h
  constructor
  · simp only [save_chat_message]
    refine List.pairwise_append.2 ⟨hp, List.pairwise_singleton _ _, ?_⟩
    intro a ha b hb
    simp only [List.mem_singleton] at hb
    subst hb
    exact hlt a ha
  · simp only [save_chat_message]
    intro r hr
    rcases List.mem_append.1 hr with h1 | h1
    · exact Nat.lt_succ_of_lt (hlt r h1)
    · simp only [List.mem_singleton] at h1
      subst h1
      exact Nat.lt_succ_self _

theorem chatTsOk_appendAll (db : DB) (h : ChatTsOk db) (s : String)
    (ms : List (String × String)) : ChatTsOk (appendAll db s ms) := by
  induction ms generalizing db with
  | nil => exact h
  | cons rm tl ih => exact ih _ (chatTsOk_save db h s rm.1 rm.2)

theorem sessionRows_save (db : DB) (s role msg : String) :
    sessionRows (save_chat_message db s role msg) s
      = sessionRows db s ++
        [{ rowid := db.nextChatId, ts := db.clock, session_id := s, role := role, message := msg }] := by
  simp [sessionRows, save_chat_message, List.filter_append]

theorem sessionRows_appendAll (s : String) (ms : List (String × String)) (db : DB) :
    (sessionRows (appendAll db s ms) s).map (fun r => (r.role, r.message))
      = (sessionRows db s).map (fun r => (r.role, r.message)) ++ ms := by
  induction ms generalizing db with
  | nil => simp [appendAll]
  | cons rm tl ih =>
    obtain ⟨role, msg⟩ := rm
    have h1 : appendAll db s ((role, msg) :: tl)
        = appendAll (save_chat_message db s role msg) s tl := rfl
    rw [h1, ih, sessionRows_save]
    simp

theorem insertByTsDesc_of_lt (x : ChatRow) (l : List ChatRow)
    (h : ∀ y ∈ l, x.ts < y.ts) : insertByTsDesc x l = l ++ [x] := by
  induction l with
  | nil => rfl
  | cons y tl ih =>
    have hy : x.ts < y.ts := h y (List.mem_cons_self y tl)
    simp only [insertByTsDesc]
    rw [if_neg (by omega)]
    rw [ih (fun z hz => h z (List.mem_cons_of_mem y hz))]
    rfl

theorem sortByTsDesc_of_pairwise (l : List ChatRow)
    (h : l.Pairwise (fun a b => a.ts < b.ts)) : sortByTsDesc l = l.reverse := by
  induction l with
  | nil => rfl
  | cons x tl ih =>
    rw [List.pairwise_cons] at h
    simp only [sortByTsDesc]
    rw [ih h.2, insertByTsDesc_of_lt x tl.reverse (fun y hy => h.1 y (List.mem_reverse.1 hy))]
    simp

/-- Under the timestamp invariant, `get_chat_history` is exactly "the last `N`
session rows, oldest first". -/
theorem get_chat_history_eq (db : DB) (s : String) (N : Nat) (h : ChatTsOk db) :
    get_chat_history db s N
      = ((sessionRows db s).drop ((sessionRows db s).length - N)).map
          (fun r => { role := r.role, message := r.message, ts := r.ts }) := by
  have hp : (sessionRows db s).Pairwise (fun a b => a.ts < b.ts) :=
    List.Pairwise.sublist (List.filter_sublist db.chat_history) h.1
  show ((sortByTsDesc (sessionRows db s)).take N).reverse.map _ = _
  rw [sortByTsDesc_of_pairwise _ hp, List.take_reverse, List.reverse_reverse]

/-- **C1.** For every session `s` and every sequence of messages
`m1, ..., mk` appended in order via `save_chat_message`,
`get_chat_history(s, N)` with `N ≤ k` returns exactly the final `N` messages
of that sequence, in their original chronological (oldest-to-newest) order. -/
theorem get_chat_history_returns_last_n (db0 : DB) (s : String)
    (ms : List (String × String)) (N : Nat)
    (hInv : ChatTsOk db0) (hs : sessionRows db0 s = []) (_hN : N ≤ ms.length) :
    (get_chat_history (appendAll db0 s ms) s N).map (fun m => (m.role, m.message))
      = ms.drop (ms.length - N) := by
  have hInv' := chatTsOk_appendAll db0 hInv s ms
  have hproj := sessionRows_appendAll s ms db0
  rw [hs] at hproj
  simp only [List.map_nil, List.nil_append] at hproj
  have hlen : (sessionRows (appendAll db0 s ms) s).length = ms.length := by
    have h := congrArg List.length hproj
    simpa using h
  rw [get_chat_history_eq _ _ _ hInv', List.map_map]
  have hcomp :
      ((fun m : ChatMsg => (m.role, m.message)) ∘
        fun r : ChatRow => ({ role := r.role, message := r.message, ts := r.ts } : ChatMsg))
      = fun r : ChatRow => (r.role, r.message) := rfl
  rw [hcomp, List.map_drop, hproj, hlen]

/-- Witness for C1 at a concrete three-message session with `N = 2`. -/
theorem get_chat_history_returns_last_n_witness :
    (get_chat_history
        (appendAll init_database "s" [("user", "m1"), ("assistant", "m2"), ("user", "m3")])
        "s" 2).map (fun m => (m.role, m.message))
      = [("assistant", "m2"), ("user", "m3")] :=
  get_chat_history_returns_last_n init_database "s"
    [("user", "m1"), ("assistant", "m2"), ("user", "m3")] 2
    (by constructor <;> simp [init_database]) (by decide) (by decide)

/-- No two rows of the `leads` table share the same email (the `UNIQUE`
constraint). -/
abbrev EmailsUnique (db : DB) : Prop :=
  db.leads.Pairwise (fun a b => a.email ≠ b.email)

/-- The fresh row inserted for `d` by `save_lead` on a database in state
`db` (fresh autoincrement id, current-time timestamp, default flags). -/
def leadRowOf (db : DB) (d : LeadData) : LeadRow :=
  { id := db.nextLeadId, ts := db.clock
    session_id := d.session_id, name := d.name, email := d.email, phone := d.phone
    location := d.location, home_value := d.home_value
    interest_level := d.interest_level, source := d.source
    conversation_summary := d.conversation_summary
    affiliate_clicked := false, quote_requested := false }

theorem filter_eq_email_of_filter_ne (e : String) (l : List LeadRow) :
    (l.filter (fun r => r.email != e)).filter (fun r => r.email == e) = [] := by
  rw [List.filter_filter]
  refine List.filter_eq_nil_iff.2 ?_
  intro r _
  by_cases h : r.email = e <;> simp [h]

/-- **C2.** For every email `e`, calling `save_lead` with
`{email: e, name: "A"}` and then `save_lead` with `{email: e, name: "B"}`
leaves exactly one lead record with email `e`, whose name is `"B"` and whose
every other stored field comes from the second call (full replacement, not a
field-level merge); and `save_lead` preserves the invariant that no two lead
records share the same email. -/
theorem save_lead_upsert :
    (∀ (db : DB) (d1 d2 : LeadData) (e : String),
      d1.email = e → d2.email = e → d1.name = "A" → d2.name = "B" →
      (save_lead (save_lead db d1) d2).leads.filter (fun r => r.email == e)
        = [leadRowOf (save_lead db d1) d2])
    ∧ (∀ (db : DB) (d : LeadData), EmailsUnique db → EmailsUnique (save_lead db d)) := by
  constructor
  · intro db d1 d2 e h1 h2 _ _
    subst h1
    show ((save_lead db d1).leads.filter (fun r => r.email != d2.email)
          ++ [leadRowOf (save_lead db d1) d2]).filter (fun r => r.email == d1.email) = _
    rw [List.filter_append, h2, filter_eq_email_of_filter_ne]
    simp [leadRowOf, h2]
  · intro db d hU
    show (db.leads.filter (fun r => r.email != d.email) ++ [leadRowOf db d]).Pairwise _
    refine List.pairwise_append.2
      ⟨List.Pairwise.sublist (List.filter_sublist db.leads) hU,
       List.pairwise_singleton _ _, ?_⟩
    intro a ha b hb
    simp only [List.mem_singleton] at hb
    subst hb
    have := (List.mem_filter.1 ha).2
    simp only [bne_iff_ne, ne_eq] at this
    simpa [leadRowOf] using this

/-- Witness for C2: two concrete upserts on the same email. -/
theorem save_lead_upsert_witness :
    (save_lead (save_lead init_database
        { session_id := "s1", name := "A", email := "e@example.com", phone := "1"
          location := "NY", home_value := "100k", interest_level := "low"
          source := "web", conversation_summary := "first" })
        { session_id := "s2", name := "B", email := "e@example.com", phone := "2"
          location := "LA", home_value := "200k", interest_level := "high"
          source := "web", conversation_summary := "second" }).leads.filter
        (fun r => r.email == "e@example.com")
      = [leadRowOf (save_lead init_database
          { session_id := "s1", name := "A", email := "e@example.com", phone := "1"
            location := "NY", home_value := "100k", interest_level := "low"
            source := "web", conversation_summary := "first" })
          { session_id := "s2", name := "B", email := "e@example.com", phone := "2"
            location := "LA", home_value := "200k", interest_level := "high"
            source := "web", conversation_summary := "second" }]
    ∧ EmailsUnique (save_lead init_database
        { session_id := "s1", name := "A", email := "e@example.com", phone := "1"
          location := "NY", home_value := "100k", interest_level := "low"
          source := "web", conversation_summary := "first" }) :=
  ⟨save_lead_upsert.1 init_database _ _ "e@example.com" rfl rfl rfl rfl,
   save_lead_upsert.2 init_database _ List.Pairwise.nil⟩

/-- Model invariant for the `leads` table: every id is below the autoincrement
counter, every timestamp is below the clock, and the stored ids are pairwise
distinct. -/
abbrev LeadsOk (db : DB) : Prop :=
  (∀ r ∈ db.leads, r.id < db.nextLeadId ∧ r.ts < db.clock)
    ∧ (db.leads.map (fun r => r.id)).Nodup

/-- **C10.** When `save_lead` is called with an email that already exists, the
replacement row receives a fresh auto-assigned integer id (the prior id ceases
to exist) and the fields not supplied by the caller — `affiliate_clicked`,
`quote_requested`, and the creation timestamp — revert to their schema
defaults rather than being carried over from the prior record; thus a lead's
id is not stable across re-capture of the same email. -/
theorem save_lead_fresh_defaults (db : DB) (d : LeadData) (r : LeadRow)
    (hInv : LeadsOk db) (hr : r ∈ db.leads) (he : r.email = d.email) :
    (∀ r' ∈ (save_lead db d).leads, r'.email = d.email → r' = leadRowOf db d)
    ∧ (leadRowOf db d).id ≠ r.id
    ∧ (∀ r' ∈ (save_lead db d).leads, r'.id ≠ r.id)
    ∧ (leadRowOf db d).affiliate_clicked = false
    ∧ (leadRowOf db d).quote_requested = false
    ∧ (leadRowOf db d).ts = db.clock
    ∧ (leadRowOf db d).ts ≠ r.ts := by
  obtain ⟨hb, hnodup⟩ := hInv
  have hidr : r.id < db.nextLeadId := (hb r hr).1
  have htsr : r.ts < db.clock := (hb r hr).2
  have hmem : ∀ r' ∈ (save_lead db d).leads,
      (r' ∈ db.leads ∧ (r'.email != d.email) = true) ∨ r' = leadRowOf db d := by
    intro r' hr'
    rcases List.mem_append.1 hr' with h1 | h1
    · exact Or.inl (List.mem_filter.1 h1)
    · simp only [List.mem_singleton] at h1
      exact Or.inr h1
  refine ⟨?_, ?_, ?_, rfl, rfl, rfl, ?_⟩
  · intro r' hr' hmail
    rcases hmem r' hr' with ⟨_, hne⟩ | hEq
    · rw [bne_iff_ne] at hne
      exact absurd hmail hne
    · exact hEq
  · show db.nextLeadId ≠ r.id
    omega
  · intro r' hr'
    rcases hmem r' hr' with ⟨hmemold, hne⟩ | hEq
    · intro hid
      rw [bne_iff_ne] at hne
      have : r' = r := List.inj_on_of_nodup_map hnodup hmemold hr hid
      rw [this, he] at hne
      exact hne rfl
    · rw [hEq]
      show db.nextLeadId ≠ r.id
      omega
  · show db.clock ≠ r.ts
    omega

/-- Witness for C10: re-capturing a concrete email gives the replacement row
an id different from the prior row's id. -/
theorem save_lead_fresh_defaults_witness :
    (leadRowOf (save_lead init_database
        { session_id := "s1", name := "A", email := "e@example.com", phone := "1"
          location := "NY", home_value := "100k", interest_level := "low"
          source := "web", conversation_summary := "first" })
        { session_id := "s2", name := "B", email := "e@example.com", phone := "2"
          location := "LA", home_value := "200k", interest_level := "high"
          source := "web", conversation_summary := "second" }).id
      ≠ (leadRowOf init_database
        { session_id := "s1", name := "A", email := "e@example.com", phone := "1"
          location := "NY", home_value := "100k", interest_level := "low"
          source := "web", conversation_summary := "first" }).id :=
  (save_lead_fresh_defaults (save_lead init_database
      { session_id := "s1", name := "A", email := "e@example.com", phone := "1"
        location := "NY", home_value := "100k", interest_level := "low"
        source := "web", conversation_summary := "first" })
      { session_id := "s2", name := "B", email := "e@example.com", phone := "2"
        location := "LA", home_value := "200k", interest_level := "high"
        source := "web", conversation_summary := "second" }
      (leadRowOf init_database
        { session_id := "s1", name := "A", email := "e@example.com", phone := "1"
          location := "NY", home_value := "100k", interest_level := "low"
          source := "web", conversation_summary := "first" })
      (by refine ⟨?_, ?_⟩ <;> simp [save_lead, init_database, leadRowOf])
      (by simp [save_lead, init_database, leadRowOf])
      rfl).2.1

theorem chat_api_db_chat_history (provider : List FMessage → Option String)
    (db : DB) (message session_id : String) :
    (chat_api provider db message session_id).db.chat_history
      = db.chat_history ++
        [{ rowid := db.nextChatId, ts := db.clock, session_id := session_id
           role := "user", message := message },
         { rowid := db.nextChatId + 1, ts := db.clock + 1, session_id := session_id
           role := "assistant", message := chat_api_ai provider db message session_id }] := by
  simp [chat_api, save_chat_message, chat_api_ai]

/-- **C3 (counterexample).** The claim "on any provider failure the fixed
apology fallback string is returned to the caller as the reply" is false as
stated: for the message `"how much"` (a pricing keyword) with a failing
provider, the reply returned by `POST /api/chat` is the fallback with the
call-to-action suffix appended, not the fallback string itself. -/
theorem chat_api_fallback_reply_counterexample :
    (chat_api (fun _ => none) init_database "how much" "s").response
      ≠ fallback_message := by decide

/-- **C3 (amended).** Every invocation of `POST /api/chat` performs exactly
two chat-history writes — the user turn then the assistant turn — even when
the completion provider fails; on any provider failure the fixed apology
fallback string is persisted as the assistant turn and returned to the caller
as the reply (with the pricing call-to-action suffix appended when the message
matches a pricing keyword), and the failure is never surfaced as an error to
the caller. -/
theorem chat_api_two_writes_and_fallback :
    (∀ (provider : List FMessage → Option String) (db : DB) (message session_id : String),
      (chat_api provider db message session_id).db.chat_history
        = db.chat_history ++
          [{ rowid := db.nextChatId, ts := db.clock, session_id := session_id
             role := "user", message := message },
           { rowid := db.nextChatId + 1, ts := db.clock + 1, session_id := session_id
             role := "assistant", message := chat_api_ai provider db message session_id }])
    ∧ (∀ (provider : List FMessage → Option String) (db : DB) (message session_id : String),
        (∀ msgs, provider msgs = none) →
        chat_api_ai provider db message session_id = fallback_message
        ∧ (chat_api provider db message session_id).response
            = (if is_quote_request message then fallback_message ++ cta_suffix
               else fallback_message)) := by
  constructor
  · intro provider db message session_id
    simp [chat_api, save_chat_message, chat_api_ai]
  · intro provider db message session_id hfail
    have h1 : chat_api_ai provider db message session_id = fallback_message := by
      simp only [chat_api_ai, get_ai_response, hfail]
    have h2 : (chat_api provider db message session_id).response
        = (if is_quote_request message
           then chat_api_ai provider db message session_id ++ cta_suffix
           else chat_api_ai provider db message session_id) := rfl
    rw [h2, h1]
    exact ⟨rfl, rfl⟩

/-- Witness for the amended C3 at a concrete failing provider. -/
theorem chat_api_two_writes_and_fallback_witness :
    chat_api_ai (fun _ => none) init_database "hello" "s" = fallback_message
    ∧ (chat_api (fun _ => none) init_database "hello" "s").response
        = (if is_quote_request "hello" then fallback_message ++ cta_suffix
           else fallback_message) :=
  chat_api_two_writes_and_fallback.2 (fun _ => none) init_database "hello" "s" (fun _ => rfl)

/-- **C6.** The reply returned by `POST /api/chat` carries the fixed
call-to-action suffix exactly when the original user message, compared
case-insensitively, contains at least one of the keywords `"quote"`,
`"price"`, `"how much"`, `"cost"`, `"rate"`: the handler appends `cta_suffix`
to the provider reply precisely when `is_quote_request` holds of the message;
in particular a message containing `"how much does it cost"` gets the suffix
appended and a message containing only `"hello"` does not. -/
theorem chat_api_quote_suffix :
    (∀ (provider : List FMessage → Option String) (db : DB) (message session_id : String),
      (chat_api provider db message session_id).response
        = (if is_quote_request message
           then chat_api_ai provider db message session_id ++ cta_suffix
           else chat_api_ai provider db message session_id))
    ∧ is_quote_request "how much does it cost" = true
    ∧ is_quote_request "hello" = false
    ∧ is_quote_request "What is the PRICE of coverage?" = true :=
  ⟨fun _ _ _ _ => rfl, by decide, by decide, by decide⟩

/-- **C9.** The assistant turn that `POST /api/chat` persists to chat history
is always the provider reply (or the fallback string) without the
pricing-intent call-to-action suffix: the suffix is appended only after the
persistence write, so every row of the stored chat history is either an old
row, the user message, or the pre-suffix reply — never the suffixed response
— even when the returned response does carry the suffix. -/
theorem chat_api_suffix_not_persisted :
    ∀ (provider : List FMessage → Option String) (db : DB) (message session_id : String),
      (chat_api provider db message session_id).db.chat_history
        = db.chat_history ++
          [{ rowid := db.nextChatId, ts := db.clock, session_id := session_id
             role := "user", message := message },
           { rowid := db.nextChatId + 1, ts := db.clock + 1, session_id := session_id
             role := "assistant", message := chat_api_ai provider db message session_id }]
      ∧ (chat_api provider db message session_id).response
          = (if is_quote_request message
             then chat_api_ai provider db message session_id ++ cta_suffix
             else chat_api_ai provider db message session_id)
      ∧ ∀ row ∈ (chat_api provider db message session_id).db.chat_history,
          row ∈ db.chat_history ∨ row.message = message
            ∨ row.message = chat_api_ai provider db message session_id := by
  intro provider db message session_id
  refine ⟨chat_api_db_chat_history provider db message session_id, rfl, ?_⟩
  intro row hrow
  rw [chat_api_db_chat_history] at hrow
  rcases List.mem_append.1 hrow with h1 | h1
  · exact Or.inl h1
  · rcases List.mem_cons.1 h1 with h2 | h2
    · subst h2
      exact Or.inr (Or.inl rfl)
    · simp only [List.mem_singleton] at h2
      subst h2
      exact Or.inr (Or.inr rfl)

/-- **C4.** `GET /webhook` returns the supplied `hub_challenge` value (as an
integer) when `hub_mode` equals `"subscribe"` and `hub_verify_token` equals
the configured verify token, and rejects with an HTTP 403 authorization
failure for every other combination of mode and token (wrong token, wrong
mode, or both). -/
theorem verify_webhook_spec (tok mode ch vtok : String) :
    (∀ n : Int, py_int ch = some n → mode = "subscribe" → vtok = tok →
      verify_webhook tok mode ch vtok = .challenge n)
    ∧ (mode ≠ "subscribe" ∨ vtok ≠ tok →
      verify_webhook tok mode ch vtok = .httpError 403 "Verification failed") := by
  constructor
  · intro n hn hm hv
    subst hm
    subst hv
    simp [verify_webhook, hn]
  · intro h
    have hcond : ¬(mode = "subscribe" ∧ vtok = tok) := by tauto
    simp only [verify_webhook, if_neg hcond]

/-- Witness for C4 at the default verify token and a concrete challenge. -/
theorem verify_webhook_spec_witness :
    verify_webhook FB_VERIFY_TOKEN_default "subscribe" "123456" FB_VERIFY_TOKEN_default
        = .challenge 123456
    ∧ verify_webhook FB_VERIFY_TOKEN_default "subscribe" "123456" "wrong_token"
        = .httpError 403 "Verification failed" :=
  ⟨(verify_webhook_spec FB_VERIFY_TOKEN_default "subscribe" "123456" FB_VERIFY_TOKEN_default).1
      123456 (by decide) rfl rfl,
   (verify_webhook_spec FB_VERIFY_TOKEN_default "subscribe" "123456" "wrong_token").2
      (Or.inr (by decide))⟩

/-- **C5.** `verify_admin` accepts a supplied username/password pair if and
only if the username equals the configured admin username and either (a) a
password hash is configured and the SHA-256 hex digest of the supplied
password equals that hash, or (b) no hash is configured and the supplied
password equals the fixed development fallback password `"admin123"`; any
mismatch yields an HTTP 401 authorization failure whose rejection reason
distinguishes a bad username from a bad password. -/
theorem verify_admin_spec (cfg : AdminConfig) (sha256hex : String → String) (c : Credentials) :
    (verify_admin cfg sha256hex c = .ok c.username ↔
      (c.username = cfg.username ∧
        ((∃ h, cfg.password_hash = some h ∧ sha256hex c.password = h)
          ∨ (cfg.password_hash = none ∧ c.password = "admin123"))))
    ∧ (c.username ≠ cfg.username →
        verify_admin cfg sha256hex c = .error 401 "Invalid username")
    ∧ (c.username = cfg.username →
        ((∃ h, cfg.password_hash = some h ∧ sha256hex c.password ≠ h)
          ∨ (cfg.password_hash = none ∧ c.password ≠ "admin123")) →
        verify_admin cfg sha256hex c = .error 401 "Invalid password") := by
  refine ⟨⟨?_, ?_⟩, ?_, ?_⟩
  · intro hok
    by_cases hu : c.username = cfg.username
    · refine ⟨hu, ?_⟩
      rcases hph : cfg.password_hash with _ | h₀
      · by_cases hp : c.password = "admin123"
        · exact Or.inr ⟨rfl, hp⟩
        · exfalso
          simp [verify_admin, hu, hph, hp] at hok
      · by_cases hp : sha256hex c.password = h₀
        · exact Or.inl ⟨h₀, rfl, hp⟩
        · exfalso
          simp [verify_admin, hu, hph, hp] at hok
    · exfalso
      simp [verify_admin, hu] at hok
  · rintro ⟨hu, ⟨h₀, hph, hp⟩ | ⟨hph, hp⟩⟩ <;> simp [verify_admin, hu, hph, hp]
  · intro hu
    simp [verify_admin, hu]
  · rintro hu (⟨h₀, hph, hp⟩ | ⟨hph, hp⟩) <;> simp [verify_admin, hu, hph, hp]

/-- Witness for C5: the development-fallback configuration accepts
`admin/admin123`, rejects a wrong username with "Invalid username", and
rejects a wrong password with "Invalid password". -/
theorem verify_admin_spec_witness :
    verify_admin { username := "admin", password_hash := none } (fun s => s)
        { username := "admin", password := "admin123" } = .ok "admin"
    ∧ verify_admin { username := "admin", password_hash := none } (fun s => s)
        { username := "root", password := "admin123" } = .error 401 "Invalid username"
    ∧ verify_admin { username := "admin", password_hash := none } (fun s => s)
        { username := "admin", password := "letmein" } = .error 401 "Invalid password" :=
  ⟨(verify_admin_spec { username := "admin", password_hash := none } (fun s => s)
      { username := "admin", password := "admin123" }).1.2 ⟨rfl, Or.inr ⟨rfl, rfl⟩⟩,
   (verify_admin_spec { username := "admin", password_hash := none } (fun s => s)
      { username := "root", password := "admin123" }).2.1 (by decide),
   (verify_admin_spec { username := "admin", password_hash := none } (fun s => s)
      { username := "admin", password := "letmein" }).2.2 rfl (Or.inr ⟨rfl, by decide⟩)⟩

/-- **C7.** For every lead id, including ids not present in the store,
`DELETE /api/admin/lead/{id}` under valid admin credentials (modelled by the
authenticated `username` that `Depends(verify_admin)` supplies) returns
`{success: true}` and appends exactly one admin-log entry naming the delete
action and the target id; no existence check is performed before deleting or
logging — the id is simply filtered out of the leads. -/
theorem delete_lead_spec (db : DB) (username : String) (lead_id : Nat) :
    (delete_lead db username lead_id).success = true
    ∧ (delete_lead db username lead_id).db.admin_logs
        = db.admin_logs ++
          [{ ts := db.clock, admin_user := username, action := "delete_lead"
             details := "Deleted lead ID: " ++ toString lead_id }]
    ∧ (delete_lead db username lead_id).db.leads
        = db.leads.filter (fun r => r.id != lead_id) :=
  ⟨rfl, rfl, rfl⟩

/-- **C8 (counterexample).** The claim "when the email and source query
parameters are supplied, both appear as query parameters of the redirect
target" is false as stated: for `/track/lemonade?email=x@y.com&source=web`
the lemonade base URL contains no `?`, so the appended `&email=x@y.com` is
not a query parameter of the redirect target at all. -/
theorem track_affiliate_query_param_counterexample :
    (track_affiliate_click "lemonade" (some "x@y.com") (some "web")).url
      = "https://www.lemonade.com/landing/ref-INSURANCEBOT&email=x@y.com&source=web"
    ∧ "email=x@y.com" ∉ queryParams
        (track_affiliate_click "lemonade" (some "x@y.com") (some "web")).url :=
  ⟨by decide, by decide⟩

/-- **C8 (amended).** `GET /track/{affiliate_id}` returns an HTTP 302
redirect: for `thezebra`, `policygenius` and `lemonade` it targets that
partner's fixed base URL and for any other affiliate id the default fallback
base URL; supplied non-empty `email` and `source` values are appended to the
target as `&email=...` and `&source=...`.  For `thezebra` and `policygenius`,
whose base URLs contain a query string, the appended values are genuine query
parameters (in particular `/track/thezebra?email=x@y.com&source=web`
redirects to the thezebra base URL with `email=x@y.com` and `source=web`
present); for `lemonade` and unknown ids the base URL has no `?`, so the
appended text is not part of a query string. -/
theorem track_affiliate_spec :
    (∀ (affiliate_id : String) (email source : Option String),
      (track_affiliate_click affiliate_id email source).status_code = 302)
    ∧ (∀ e s : String, e ≠ "" → s ≠ "" →
        (track_affiliate_click "thezebra" (some e) (some s)).url
          = "https://www.thezebra.com/?agent=INSURANCEBOT" ++ "&email=" ++ e ++ "&source=" ++ s)
    ∧ (∀ e s : String, e ≠ "" → s ≠ "" →
        (track_affiliate_click "policygenius" (some e) (some s)).url
          = "https://www.policygenius.com/?ref=INSURANCEBOT" ++ "&email=" ++ e ++ "&source=" ++ s)
    ∧ (∀ e s : String, e ≠ "" → s ≠ "" →
        (track_affiliate_click "lemonade" (some e) (some s)).url
          = "https://www.lemonade.com/landing/ref-INSURANCEBOT" ++ "&email=" ++ e ++ "&source=" ++ s)
    ∧ (∀ aid : String, aid ≠ "thezebra" → aid ≠ "policygenius" → aid ≠ "lemonade" →
        (track_affiliate_click aid none none).url = "https://www.thezebra.com")
    ∧ queryParams (track_affiliate_click "thezebra" (some "x@y.com") (some "web")).url
        = ["agent=INSURANCEBOT", "email=x@y.com", "source=web"] := by
  refine ⟨?_, ?_, ?_, ?_, ?_, by decide⟩
  · intro affiliate_id email source
    rcases email with _ | e <;> rcases source with _ | s <;> simp [track_affiliate_click]
  · intro e s he hs
    simp [track_affiliate_click, he, hs]
  · intro e s he hs
    simp [track_affiliate_click, he, hs]
  · intro e s he hs
    simp [track_affiliate_click, he, hs]
  · intro aid h1 h2 h3
    simp [track_affiliate_click, h1, h2, h3]

/-- Witness for the amended C8 at the spec's concrete examples. -/
theorem track_affiliate_spec_witness :
    (track_affiliate_click "thezebra" (some "x@y.com") (some "web")).url
      = "https://www.thezebra.com/?agent=INSURANCEBOT" ++ "&email=" ++ "x@y.com"
          ++ "&source=" ++ "web"
    ∧ (track_affiliate_click "unknown" none none).url = "https://www.thezebra.com" :=
  ⟨track_affiliate_spec.2.1 "x@y.com" "web" (by decide) (by decide),
   track_affiliate_spec.2.2.2.2.1 "unknown" (by decide) (by decide) (by decide)⟩

/-- Witness for C9: the stored user row of a concrete invocation is accounted
for by the persisted-message characterisation. -/
theorem chat_api_suffix_not_persisted_witness :
    ({ rowid := 1, ts := 0, session_id := "s", role := "user", message := "hello" } : ChatRow)
        ∈ init_database.chat_history
    ∨ ({ rowid := 1, ts := 0, session_id := "s", role := "user", message := "hello" } : ChatRow).message
        = "hello"
    ∨ ({ rowid := 1, ts := 0, session_id := "s", role := "user", message := "hello" } : ChatRow).message
        = chat_api_ai (fun _ => some "reply") init_database "hello" "s" :=
  (chat_api_suffix_not_persisted (fun _ => some "reply") init_database "hello" "s").2.2
    { rowid := 1, ts := 0, session_id := "s", role := "user", message := "hello" } (by decide)
